import Mathlib

/-!
Shallow embedding of the wisey-telemetry observability facade
(src/wisey_telemetry/telemetry.py, kafka_metrics.py, job_metrics.py).

The repository is a thin facade over the OpenTelemetry Python SDK.  The
facade's own code is embedded directly from the source; the few SDK entry
points the facade calls (span context-manager exit behaviour, the global
set-once provider setters, instrument add/record) are modelled from the
published, documented behaviour of opentelemetry-python, since the facade's
observable behaviour flows through them:

* trace.Tracer.start_as_current_span uses trace.use_span with its defaults
  record_exception=True, set_status_on_exception=True, end_on_exit=True:
  an exception escaping the with-block is recorded on the span as one
  exception event, the status is set to
  ERROR with description "{type(exc).__name__}: {exc}", and the exception
  is re-raised; the span is ended on every exit path.
* trace.set_tracer_provider and metrics.set_meter_provider install the
  global provider at most once per process; a second call logs a warning
  and leaves the installed provider unchanged.
* SDK instruments (Counter.add, Histogram.record, UpDownCounter.add) are
  modelled as appending one sample to a metrics event log; per the OTel
  error-handling contract they do not raise.  For the claims about the
  facade's own error handling a second, backend-parameterised embedding of
  the record methods is given, so that a backend that does raise can be
  plugged in.
-/

namespace Wisey

/-- A Python exception value: its type name and its message (str(e)). -/
structure PyExc where
  typeName : String
  msg : String
deriving DecidableEq, Repr

/-- Result of running a wrapped block: normal return or an escaping
exception. -/
inductive Outcome (α : Type) where
  | ok (v : α)
  | exn (e : PyExc)
deriving DecidableEq, Repr

/-- Span status, as in opentelemetry.trace.Status / StatusCode. -/
inductive SpanStatus where
  | unset
  | okStatus
  | error (description : String)
deriving DecidableEq, Repr

/-- The observable state of one SDK span: its name, its attributes, the
exception events recorded on it, its status and whether it has ended. -/
structure SpanState where
  name : String
  attributes : List (String × String)
  exceptionEvents : List PyExc
  status : SpanStatus
  ended : Bool
deriving DecidableEq, Repr

/-- span.set_attribute(k, v). -/
def SpanState.set_attribute (sp : SpanState) (k v : String) : SpanState :=
  { sp with attributes := sp.attributes ++ [(k, v)] }

/-- span.record_exception(e): appends one exception event. -/
def SpanState.record_exception (sp : SpanState) (e : PyExc) : SpanState :=
  { sp with exceptionEvents := sp.exceptionEvents ++ [e] }

/-- SDK Span.set_status: a status of OK is final, any other current status
is overwritten. -/
def SpanState.set_status (sp : SpanState) (st : SpanStatus) : SpanState :=
  match sp.status with
  | SpanStatus.okStatus => sp
  | _ => { sp with status := st }

/-- span.end(). -/
def SpanState.end_span (sp : SpanState) : SpanState :=
  { sp with ended := true }

/-- A freshly started span, as created by tracer.start_as_current_span. -/
def freshSpan (name : String) : SpanState :=
  { name := name, attributes := [], exceptionEvents := [],
    status := SpanStatus.unset, ended := false }

/-- Modelled from opentelemetry.trace.use_span (the context manager behind
start_as_current_span, at its default arguments): on normal completion the
span is simply ended; on an escaping exception the exception is recorded,
the status is set to ERROR with description
"{type(exc).__name__}: {exc}", the span is ended and the exception is
re-raised. -/
def use_span_exit {α : Type} (sp : SpanState) (body : Outcome α) :
    Outcome α × SpanState :=
  match body with
  | Outcome.ok v => (Outcome.ok v, sp.end_span)
  | Outcome.exn e =>
      let sp := sp.record_exception e
      let sp := sp.set_status (SpanStatus.error (e.typeName ++ ": " ++ e.msg))
      (Outcome.exn e, sp.end_span)

/-- telemetry.start_trace_span(name, attrs): opens a span via
tracer.start_as_current_span(name), sets each provided attribute, runs the
caller's block, and exits via the SDK context manager (use_span_exit). -/
def start_trace_span {α : Type} (name : String)
    (attrs : List (String × String)) (body : Outcome α) :
    Outcome α × SpanState :=
  let sp := freshSpan name
  let sp := attrs.foldl (fun s kv => s.set_attribute kv.1 kv.2) sp
  use_span_exit sp body

/-- telemetry.trace_function(name) applied to a callable whose invocation
has the given outcome: the wrapper runs the call inside
start_trace_span(name); on exception it logs, records the exception on the
span, sets status ERROR with str(e) and re-raises, after which the
start_trace_span context exit runs as well. -/
def trace_function {α : Type} (name : String) (body : Outcome α) :
    Outcome α × SpanState :=
  let sp := freshSpan name
  match body with
  | Outcome.ok v => use_span_exit sp (Outcome.ok v)
  | Outcome.exn e =>
      let sp := sp.record_exception e
      let sp := sp.set_status (SpanStatus.error e.msg)
      use_span_exit sp (Outcome.exn e)

/-! ## Metrics model

SDK instruments append samples to a process-wide metrics stream; we record
that stream as an event log, one event per Counter.add / Histogram.record /
UpDownCounter.add call, tagged with the instrument name, the value, and the
label set passed by the facade.  The state also carries the wall clock read
by time.time(), so that the measure_* helpers compute durations as the
source does. -/

/-- One recorded metric sample. -/
structure MetricEvent where
  instrument : String
  value : ℚ
  labels : List (String × String)
deriving DecidableEq, Repr

/-- Process metrics state: current time.time() reading and the samples
recorded so far. -/
structure MetricsState where
  now : ℚ
  events : List MetricEvent
deriving DecidableEq, Repr

/-- An SDK instrument operation (Counter.add, UpDownCounter.add,
Histogram.record): appends one sample; per the OTel error-handling
contract it does not raise. -/
def instrAdd (instrument : String) (value : ℚ)
    (labels : List (String × String)) (st : MetricsState) : MetricsState :=
  { st with events := st.events ++ [⟨instrument, value, labels⟩] }

/-! ### KafkaMetrics (kafka_metrics.py) -/

/-- The queue-producer registry: its only per-instance datum is the owning
service name; its instruments are the fixed set registered by
_init_metrics. -/
structure KafkaMetrics where
  service_name : String
deriving DecidableEq, Repr

/-- KafkaMetrics.record_message_sent(topic, success). -/
def KafkaMetrics.record_message_sent (m : KafkaMetrics) (topic : String)
    (success : Bool) (st : MetricsState) : MetricsState :=
  let labels := [("topic", topic), ("service", m.service_name)]
  if success then instrAdd "kafka_messages_sent_total" 1 labels st
  else instrAdd "kafka_messages_failed_total" 1 labels st

/-- KafkaMetrics.record_reconnection(). -/
def KafkaMetrics.record_reconnection (m : KafkaMetrics)
    (st : MetricsState) : MetricsState :=
  let labels := [("service", m.service_name)]
  instrAdd "kafka_producer_reconnections_total" 1 labels st

/-- KafkaMetrics.record_send_duration(duration, topic). -/
def KafkaMetrics.record_send_duration (m : KafkaMetrics) (duration : ℚ)
    (topic : String) (st : MetricsState) : MetricsState :=
  let labels := [("topic", topic), ("service", m.service_name)]
  instrAdd "kafka_send_duration_seconds" duration labels st

/-- KafkaMetrics.record_retry_attempts(attempts, topic). -/
def KafkaMetrics.record_retry_attempts (m : KafkaMetrics) (attempts : Int)
    (topic : String) (st : MetricsState) : MetricsState :=
  let labels := [("topic", topic), ("service", m.service_name)]
  instrAdd "kafka_retry_attempts" (attempts : ℚ) labels st

/-- KafkaMetrics.set_producer_health(healthy). -/
def KafkaMetrics.set_producer_health (m : KafkaMetrics) (healthy : Bool)
    (st : MetricsState) : MetricsState :=
  let labels := [("service", m.service_name)]
  let value : ℚ := if healthy then 1 else -1
  instrAdd "kafka_producer_health" value labels st

/-- KafkaMetrics.measure_send_time(topic) wrapping a block with the given
outcome; tick is the amount time.time() advances while the block runs. -/
def KafkaMetrics.measure_send_time (m : KafkaMetrics) (topic : String)
    (body : Outcome Unit) (tick : ℚ) (st : MetricsState) :
    Outcome Unit × MetricsState :=
  let start_time := st.now
  let st := { st with now := st.now + tick }
  match body with
  | Outcome.ok _ =>
      let duration := st.now - start_time
      let st := m.record_send_duration duration topic st
      let st := m.record_message_sent topic true st
      (Outcome.ok (), st)
  | Outcome.exn e =>
      let duration := st.now - start_time
      let st := m.record_send_duration duration topic st
      let st := m.record_message_sent topic false st
      (Outcome.exn e, st)

/-! ### JobMetrics (job_metrics.py) -/

/-- The job-lifecycle registry: its only per-instance datum is the owning
service name. -/
structure JobMetrics where
  service_name : String
deriving DecidableEq, Repr

/-- JobMetrics.record_job_created(job_type). -/
def JobMetrics.record_job_created (m : JobMetrics) (job_type : String)
    (st : MetricsState) : MetricsState :=
  let labels := [("job_type", job_type), ("service", m.service_name)]
  let st := instrAdd "jobs_created_total" 1 labels st
  instrAdd "job_queue_size" 1 [("service", m.service_name)] st

/-- JobMetrics.record_job_completed(job_type, duration). -/
def JobMetrics.record_job_completed (m : JobMetrics) (job_type : String)
    (duration : ℚ) (st : MetricsState) : MetricsState :=
  let labels := [("job_type", job_type), ("service", m.service_name)]
  let st := instrAdd "jobs_completed_total" 1 labels st
  let st := instrAdd "job_duration_seconds" duration labels st
  instrAdd "job_queue_size" (-1) [("service", m.service_name)] st

/-- JobMetrics.record_job_failed(job_type, error_code). -/
def JobMetrics.record_job_failed (m : JobMetrics) (job_type error_code : String)
    (st : MetricsState) : MetricsState :=
  let labels := [("job_type", job_type), ("error_code", error_code),
                 ("service", m.service_name)]
  let st := instrAdd "jobs_failed_total" 1 labels st
  instrAdd "job_queue_size" (-1) [("service", m.service_name)] st

/-- JobMetrics.record_job_cancelled(job_type). -/
def JobMetrics.record_job_cancelled (m : JobMetrics) (job_type : String)
    (st : MetricsState) : MetricsState :=
  let labels := [("job_type", job_type), ("service", m.service_name)]
  let st := instrAdd "jobs_cancelled_total" 1 labels st
  instrAdd "job_queue_size" (-1) [("service", m.service_name)] st

/-- JobMetrics.record_job_expired(job_type). -/
def JobMetrics.record_job_expired (m : JobMetrics) (job_type : String)
    (st : MetricsState) : MetricsState :=
  let labels := [("job_type", job_type), ("service", m.service_name)]
  let st := instrAdd "jobs_expired_total" 1 labels st
  instrAdd "job_queue_size" (-1) [("service", m.service_name)] st

/-- JobMetrics.record_ws_connection(delta). -/
def JobMetrics.record_ws_connection (m : JobMetrics) (delta : Int)
    (st : MetricsState) : MetricsState :=
  instrAdd "websocket_connections" (delta : ℚ) [("service", m.service_name)] st

/-- JobMetrics.record_ws_subscription(delta). -/
def JobMetrics.record_ws_subscription (m : JobMetrics) (delta : Int)
    (st : MetricsState) : MetricsState :=
  instrAdd "websocket_subscriptions" (delta : ℚ) [("service", m.service_name)] st

/-- JobMetrics.record_ws_message(message_type). -/
def JobMetrics.record_ws_message (m : JobMetrics) (message_type : String)
    (st : MetricsState) : MetricsState :=
  let labels := [("type", message_type), ("service", m.service_name)]
  instrAdd "websocket_messages_sent_total" 1 labels st

/-- JobMetrics.record_ws_heartbeat(). -/
def JobMetrics.record_ws_heartbeat (m : JobMetrics)
    (st : MetricsState) : MetricsState :=
  instrAdd "websocket_heartbeats_total" 1 [("service", m.service_name)] st

/-- JobMetrics.record_poll_request(job_type). -/
def JobMetrics.record_poll_request (m : JobMetrics) (job_type : String)
    (st : MetricsState) : MetricsState :=
  let labels := [("job_type", job_type), ("service", m.service_name)]
  instrAdd "job_poll_requests_total" 1 labels st

/-- JobMetrics.record_cache_hit(cache_type). -/
def JobMetrics.record_cache_hit (m : JobMetrics) (cache_type : String)
    (st : MetricsState) : MetricsState :=
  let labels := [("type", cache_type), ("service", m.service_name)]
  instrAdd "job_cache_hits_total" 1 labels st

/-- JobMetrics.record_cache_miss(cache_type). -/
def JobMetrics.record_cache_miss (m : JobMetrics) (cache_type : String)
    (st : MetricsState) : MetricsState :=
  let labels := [("type", cache_type), ("service", m.service_name)]
  instrAdd "job_cache_misses_total" 1 labels st

/-- JobMetrics.record_idempotent_request(). -/
def JobMetrics.record_idempotent_request (m : JobMetrics)
    (st : MetricsState) : MetricsState :=
  instrAdd "idempotent_requests_total" 1 [("service", m.service_name)] st

/-- JobMetrics.record_idempotent_hit(). -/
def JobMetrics.record_idempotent_hit (m : JobMetrics)
    (st : MetricsState) : MetricsState :=
  instrAdd "idempotent_hits_total" 1 [("service", m.service_name)] st

/-- JobMetrics.measure_job_duration(job_type) wrapping a block with the
given outcome; tick is the amount time.time() advances while the block
runs.  On success it records a completed job; on an escaping exception it
only records the duration histogram sample with a status=failed label and
re-raises. -/
def JobMetrics.measure_job_duration (m : JobMetrics) (job_type : String)
    (body : Outcome Unit) (tick : ℚ) (st : MetricsState) :
    Outcome Unit × MetricsState :=
  let start_time := st.now
  let st := { st with now := st.now + tick }
  match body with
  | Outcome.ok _ =>
      let duration := st.now - start_time
      (Outcome.ok (), m.record_job_completed job_type duration st)
  | Outcome.exn e =>
      let duration := st.now - start_time
      let st := instrAdd "job_duration_seconds" duration
        [("job_type", job_type), ("status", "failed"),
         ("service", m.service_name)] st
      (Outcome.exn e, st)

/-! ### Observation helpers over the metrics event log -/

/-- Sum of the values added to the instrument among samples carrying the
given label (the running total of a counter or up/down counter for that
label). -/
def counterTotal (st : MetricsState) (instrument : String)
    (lbl : String × String) : ℚ :=
  ((st.events.filter
    (fun ev => ev.instrument == instrument && ev.labels.contains lbl)).map
    (fun ev => ev.value)).sum

/-- The list of values observed by a histogram instrument, in order. -/
def histObservations (st : MetricsState) (instrument : String) : List ℚ :=
  (st.events.filter (fun ev => ev.instrument == instrument)).map
    (fun ev => ev.value)

/-! ### Backend-parameterised record methods

The record_* bodies again, this time over an arbitrary instrument backend
that may raise, so the facade's own (absent) error handling can be
examined: the method bodies below are the same straight-line instrument
calls as in the source, with no try/except around them. -/

/-- An instrument add/record implementation that may raise. -/
def AddImpl : Type :=
  String → ℚ → List (String × String) → MetricsState →
    Except PyExc MetricsState

/-- The OTel SDK backend: appends the sample and never raises. -/
def okAdd : AddImpl := fun i v l st => Except.ok (instrAdd i v l st)

/-- A backend whose instrument operations always raise e. -/
def failAdd (e : PyExc) : AddImpl := fun _ _ _ _ => Except.error e

/-- KafkaMetrics.record_message_sent over an arbitrary backend. -/
def KafkaMetrics.record_message_sent_x (add : AddImpl) (m : KafkaMetrics)
    (topic : String) (success : Bool) (st : MetricsState) :
    Except PyExc MetricsState :=
  let labels := [("topic", topic), ("service", m.service_name)]
  if success then add "kafka_messages_sent_total" 1 labels st
  else add "kafka_messages_failed_total" 1 labels st

/-- KafkaMetrics.record_reconnection over an arbitrary backend. -/
def KafkaMetrics.record_reconnection_x (add : AddImpl) (m : KafkaMetrics)
    (st : MetricsState) : Except PyExc MetricsState :=
  add "kafka_producer_reconnections_total" 1 [("service", m.service_name)] st

/-- KafkaMetrics.record_send_duration over an arbitrary backend. -/
def KafkaMetrics.record_send_duration_x (add : AddImpl) (m : KafkaMetrics)
    (duration : ℚ) (topic : String) (st : MetricsState) :
    Except PyExc MetricsState :=
  add "kafka_send_duration_seconds" duration
    [("topic", topic), ("service", m.service_name)] st

/-- KafkaMetrics.record_retry_attempts over an arbitrary backend. -/
def KafkaMetrics.record_retry_attempts_x (add : AddImpl) (m : KafkaMetrics)
    (attempts : Int) (topic : String) (st : MetricsState) :
    Except PyExc MetricsState :=
  add "kafka_retry_attempts" (attempts : ℚ)
    [("topic", topic), ("service", m.service_name)] st

/-- KafkaMetrics.set_producer_health over an arbitrary backend. -/
def KafkaMetrics.set_producer_health_x (add : AddImpl) (m : KafkaMetrics)
    (healthy : Bool) (st : MetricsState) : Except PyExc MetricsState :=
  add "kafka_producer_health" (if healthy then 1 else -1)
    [("service", m.service_name)] st

/-- JobMetrics.record_job_created over an arbitrary backend. -/
def JobMetrics.record_job_created_x (add : AddImpl) (m : JobMetrics)
    (job_type : String) (st : MetricsState) : Except PyExc MetricsState := do
  let labels := [("job_type", job_type), ("service", m.service_name)]
  let st ← add "jobs_created_total" 1 labels st
  add "job_queue_size" 1 [("service", m.service_name)] st

/-- JobMetrics.record_job_completed over an arbitrary backend. -/
def JobMetrics.record_job_completed_x (add : AddImpl) (m : JobMetrics)
    (job_type : String) (duration : ℚ) (st : MetricsState) :
    Except PyExc MetricsState := do
  let labels := [("job_type", job_type), ("service", m.service_name)]
  let st ← add "jobs_completed_total" 1 labels st
  let st ← add "job_duration_seconds" duration labels st
  add "job_queue_size" (-1) [("service", m.service_name)] st

/-- JobMetrics.record_job_failed over an arbitrary backend. -/
def JobMetrics.record_job_failed_x (add : AddImpl) (m : JobMetrics)
    (job_type error_code : String) (st : MetricsState) :
    Except PyExc MetricsState := do
  let labels := [("job_type", job_type), ("error_code", error_code),
                 ("service", m.service_name)]
  let st ← add "jobs_failed_total" 1 labels st
  add "job_queue_size" (-1) [("service", m.service_name)] st

/-- JobMetrics.record_job_cancelled over an arbitrary backend. -/
def JobMetrics.record_job_cancelled_x (add : AddImpl) (m : JobMetrics)
    (job_type : String) (st : MetricsState) : Except PyExc MetricsState := do
  let labels := [("job_type", job_type), ("service", m.service_name)]
  let st ← add "jobs_cancelled_total" 1 labels st
  add "job_queue_size" (-1) [("service", m.service_name)] st

/-- JobMetrics.record_job_expired over an arbitrary backend. -/
def JobMetrics.record_job_expired_x (add : AddImpl) (m : JobMetrics)
    (job_type : String) (st : MetricsState) : Except PyExc MetricsState := do
  let labels := [("job_type", job_type), ("service", m.service_name)]
  let st ← add "jobs_expired_total" 1 labels st
  add "job_queue_size" (-1) [("service", m.service_name)] st

/-- JobMetrics.record_ws_connection over an arbitrary backend. -/
def JobMetrics.record_ws_connection_x (add : AddImpl) (m : JobMetrics)
    (delta : Int) (st : MetricsState) : Except PyExc MetricsState :=
  add "websocket_connections" (delta : ℚ) [("service", m.service_name)] st

/-- JobMetrics.record_ws_subscription over an arbitrary backend. -/
def JobMetrics.record_ws_subscription_x (add : AddImpl) (m : JobMetrics)
    (delta : Int) (st : MetricsState) : Except PyExc MetricsState :=
  add "websocket_subscriptions" (delta : ℚ) [("service", m.service_name)] st

/-- JobMetrics.record_ws_message over an arbitrary backend. -/
def JobMetrics.record_ws_message_x (add : AddImpl) (m : JobMetrics)
    (message_type : String) (st : MetricsState) : Except PyExc MetricsState :=
  add "websocket_messages_sent_total" 1
    [("type", message_type), ("service", m.service_name)] st

/-- JobMetrics.record_ws_heartbeat over an arbitrary backend. -/
def JobMetrics.record_ws_heartbeat_x (add : AddImpl) (m : JobMetrics)
    (st : MetricsState) : Except PyExc MetricsState :=
  add "websocket_heartbeats_total" 1 [("service", m.service_name)] st

/-- JobMetrics.record_poll_request over an arbitrary backend. -/
def JobMetrics.record_poll_request_x (add : AddImpl) (m : JobMetrics)
    (job_type : String) (st : MetricsState) : Except PyExc MetricsState :=
  add "job_poll_requests_total" 1
    [("job_type", job_type), ("service", m.service_name)] st

/-- JobMetrics.record_cache_hit over an arbitrary backend. -/
def JobMetrics.record_cache_hit_x (add : AddImpl) (m : JobMetrics)
    (cache_type : String) (st : MetricsState) : Except PyExc MetricsState :=
  add "job_cache_hits_total" 1
    [("type", cache_type), ("service", m.service_name)] st

/-- JobMetrics.record_cache_miss over an arbitrary backend. -/
def JobMetrics.record_cache_miss_x (add : AddImpl) (m : JobMetrics)
    (cache_type : String) (st : MetricsState) : Except PyExc MetricsState :=
  add "job_cache_misses_total" 1
    [("type", cache_type), ("service", m.service_name)] st

/-- JobMetrics.record_idempotent_request over an arbitrary backend. -/
def JobMetrics.record_idempotent_request_x (add : AddImpl) (m : JobMetrics)
    (st : MetricsState) : Except PyExc MetricsState :=
  add "idempotent_requests_total" 1 [("service", m.service_name)] st

/-- JobMetrics.record_idempotent_hit over an arbitrary backend. -/
def JobMetrics.record_idempotent_hit_x (add : AddImpl) (m : JobMetrics)
    (st : MetricsState) : Except PyExc MetricsState :=
  add "idempotent_hits_total" 1 [("service", m.service_name)] st

/-! ### Enumeration of the record operations of both registries -/

/-- One call to a record method of either registry, with its arguments
(set_producer_health, the one non-record_* recording method, included). -/
inductive RecordOp where
  | messageSent (topic : String) (success : Bool)
  | reconnection
  | sendDuration (duration : ℚ) (topic : String)
  | retryAttempts (attempts : Int) (topic : String)
  | producerHealth (healthy : Bool)
  | jobCreated (job_type : String)
  | jobCompleted (job_type : String) (duration : ℚ)
  | jobFailed (job_type error_code : String)
  | jobCancelled (job_type : String)
  | jobExpired (job_type : String)
  | wsConnection (delta : Int)
  | wsSubscription (delta : Int)
  | wsMessage (message_type : String)
  | wsHeartbeat
  | pollRequest (job_type : String)
  | cacheHit (cache_type : String)
  | cacheMiss (cache_type : String)
  | idempotentRequest
  | idempotentHit
deriving DecidableEq, Repr

/-- Dispatch a record operation against the SDK backend (the primary,
total embedding). -/
def applyOp (km : KafkaMetrics) (jm : JobMetrics) (op : RecordOp)
    (st : MetricsState) : MetricsState :=
  match op with
  | RecordOp.messageSent topic success => km.record_message_sent topic success st
  | RecordOp.reconnection => km.record_reconnection st
  | RecordOp.sendDuration d topic => km.record_send_duration d topic st
  | RecordOp.retryAttempts n topic => km.record_retry_attempts n topic st
  | RecordOp.producerHealth h => km.set_producer_health h st
  | RecordOp.jobCreated jt => jm.record_job_created jt st
  | RecordOp.jobCompleted jt d => jm.record_job_completed jt d st
  | RecordOp.jobFailed jt ec => jm.record_job_failed jt ec st
  | RecordOp.jobCancelled jt => jm.record_job_cancelled jt st
  | RecordOp.jobExpired jt => jm.record_job_expired jt st
  | RecordOp.wsConnection d => jm.record_ws_connection d st
  | RecordOp.wsSubscription d => jm.record_ws_subscription d st
  | RecordOp.wsMessage t => jm.record_ws_message t st
  | RecordOp.wsHeartbeat => jm.record_ws_heartbeat st
  | RecordOp.pollRequest jt => jm.record_poll_request jt st
  | RecordOp.cacheHit t => jm.record_cache_hit t st
  | RecordOp.cacheMiss t => jm.record_cache_miss t st
  | RecordOp.idempotentRequest => jm.record_idempotent_request st
  | RecordOp.idempotentHit => jm.record_idempotent_hit st

/-- Dispatch a record operation against an arbitrary backend. -/
def applyOpX (add : AddImpl) (km : KafkaMetrics) (jm : JobMetrics)
    (op : RecordOp) (st : MetricsState) : Except PyExc MetricsState :=
  match op with
  | RecordOp.messageSent topic success =>
      KafkaMetrics.record_message_sent_x add km topic success st
  | RecordOp.reconnection => KafkaMetrics.record_reconnection_x add km st
  | RecordOp.sendDuration d topic =>
      KafkaMetrics.record_send_duration_x add km d topic st
  | RecordOp.retryAttempts n topic =>
      KafkaMetrics.record_retry_attempts_x add km n topic st
  | RecordOp.producerHealth h =>
      KafkaMetrics.set_producer_health_x add km h st
  | RecordOp.jobCreated jt => JobMetrics.record_job_created_x add jm jt st
  | RecordOp.jobCompleted jt d =>
      JobMetrics.record_job_completed_x add jm jt d st
  | RecordOp.jobFailed jt ec =>
      JobMetrics.record_job_failed_x add jm jt ec st
  | RecordOp.jobCancelled jt => JobMetrics.record_job_cancelled_x add jm jt st
  | RecordOp.jobExpired jt => JobMetrics.record_job_expired_x add jm jt st
  | RecordOp.wsConnection d => JobMetrics.record_ws_connection_x add jm d st
  | RecordOp.wsSubscription d =>
      JobMetrics.record_ws_subscription_x add jm d st
  | RecordOp.wsMessage t => JobMetrics.record_ws_message_x add jm t st
  | RecordOp.wsHeartbeat => JobMetrics.record_ws_heartbeat_x add jm st
  | RecordOp.pollRequest jt => JobMetrics.record_poll_request_x add jm jt st
  | RecordOp.cacheHit t => JobMetrics.record_cache_hit_x add jm t st
  | RecordOp.cacheMiss t => JobMetrics.record_cache_miss_x add jm t st
  | RecordOp.idempotentRequest =>
      JobMetrics.record_idempotent_request_x add jm st
  | RecordOp.idempotentHit => JobMetrics.record_idempotent_hit_x add jm st

/-- The registry an operation belongs to determines the owning service
name. -/
def opOwnerService (km : KafkaMetrics) (jm : JobMetrics)
    (op : RecordOp) : String :=
  match op with
  | RecordOp.messageSent _ _ => km.service_name
  | RecordOp.reconnection => km.service_name
  | RecordOp.sendDuration _ _ => km.service_name
  | RecordOp.retryAttempts _ _ => km.service_name
  | RecordOp.producerHealth _ => km.service_name
  | _ => jm.service_name

/-! ## Global tracer state (telemetry.init_telemetry)

Provider objects live in a heap indexed by creation order, so that the
aliasing in the source (add_span_processor mutates the same object that
was just installed globally) is represented faithfully. -/

/-- Configuration of one batch export pipeline attached to a provider:
the JaegerExporter endpoint wrapped in a BatchSpanProcessor. -/
structure SpanProcessorCfg where
  agent_host_name : String
  agent_port : Int
deriving DecidableEq, Repr

/-- One TracerProvider object: the service name from its Resource and its
attached span processors. -/
structure TracerProviderObj where
  service_name : String
  processors : List SpanProcessorCfg
deriving DecidableEq, Repr

/-- Process-wide tracer state: all provider objects ever constructed
(index = identity) and which one, if any, is installed globally. -/
structure TraceGlobal where
  heap : List TracerProviderObj
  installed : Option Nat
deriving DecidableEq, Repr

/-- Modelled from opentelemetry.trace.set_tracer_provider: the global
provider is set at most once per process; a later call logs
"Overriding of current TracerProvider is not allowed" and leaves the
installed provider unchanged. -/
def trace_set_tracer_provider (pid : Nat) (g : TraceGlobal) : TraceGlobal :=
  match g.installed with
  | none => { g with installed := some pid }
  | some _ => g

/-- provider.add_span_processor(p): mutates the provider object pid. -/
def TraceGlobal.add_span_processor (g : TraceGlobal) (pid : Nat)
    (cfg : SpanProcessorCfg) : TraceGlobal :=
  match g.heap.get? pid with
  | some p =>
      { g with heap :=
          g.heap.set pid { p with processors := p.processors ++ [cfg] } }
  | none => g

/-- An environment-variable mapping, as read by os.getenv. -/
def Env : Type := List (String × String)

/-- os.getenv(k, dflt). -/
def getenvD (env : Env) (k dflt : String) : String :=
  match env.lookup k with
  | some v => v
  | none => dflt

/-- Read a nonempty list of decimal digits as a number. -/
def digitsToNat : List Char → Option Nat
  | [] => none
  | c :: cs =>
      (c :: cs).foldl
        (fun acc? ch => acc?.bind
          (fun acc =>
            if ch.isDigit then some (acc * 10 + (ch.toNat - 48)) else none))
        (some 0)

/-- Python int(s): the value, or a ValueError.  (Modelled on the
decimal-literal core of int(): an optional sign followed by digits.) -/
def pyInt (s : String) : Except PyExc Int :=
  let bad : Except PyExc Int :=
    Except.error ⟨"ValueError",
      "invalid literal for int() with base 10: " ++ s⟩
  match s.data with
  | '-' :: rest =>
      match digitsToNat rest with
      | some n => Except.ok (-(n : Int))
      | none => bad
  | '+' :: rest =>
      match digitsToNat rest with
      | some n => Except.ok (n : Int)
      | none => bad
  | cs =>
      match digitsToNat cs with
      | some n => Except.ok (n : Int)
      | none => bad

/-- telemetry.init_telemetry(service_name): reads JAEGER_HOST/JAEGER_PORT
(defaults localhost/6831), builds a Resource-tagged TracerProvider,
installs it via trace.set_tracer_provider, then attaches a
BatchSpanProcessor around a JaegerExporter to the provider it just
constructed. -/
def init_telemetry (env : Env) (service_name : String) (g : TraceGlobal) :
    Except PyExc TraceGlobal :=
  let jaeger_host := getenvD env "JAEGER_HOST" "localhost"
  match pyInt (getenvD env "JAEGER_PORT" "6831") with
  | Except.error e => Except.error e
  | Except.ok jaeger_port =>
      let provider : TracerProviderObj :=
        { service_name := service_name, processors := [] }
      let pid := g.heap.length
      let g := { g with heap := g.heap ++ [provider] }
      let g := trace_set_tracer_provider pid g
      Except.ok (g.add_span_processor pid
        { agent_host_name := jaeger_host, agent_port := jaeger_port })

/-- The provider retrievable through the ambient trace API
(trace.get_tracer_provider), with its current configuration. -/
def ambientTracerProvider (g : TraceGlobal) : Option TracerProviderObj :=
  match g.installed with
  | some pid => g.heap.get? pid
  | none => none

/-! ## Global meter-provider state and the registry singletons -/

/-- Process-wide meter-provider state: how many MeterProvider objects have
been constructed (they are identified by creation index) and which one, if
any, is installed globally. -/
structure MetricsGlobal where
  installed : Option Nat
  created : Nat
deriving DecidableEq, Repr

/-- Modelled from opentelemetry.metrics.set_meter_provider: the global
meter provider is set at most once per process; a later call logs a
warning and leaves the installed provider unchanged. -/
def metrics_set_meter_provider (pid : Nat) (g : MetricsGlobal) :
    MetricsGlobal :=
  match g.installed with
  | none => { g with installed := some pid }
  | some _ => g

/-- The global-state effect shared by KafkaMetrics._init_metrics and
JobMetrics._init_metrics: construct a fresh MeterProvider (over a
PrometheusMetricReader) and pass it to metrics.set_meter_provider.
Creating the meter and the instruments afterwards does not touch this
global state. -/
def init_metrics_global (g : MetricsGlobal) : MetricsGlobal :=
  let provider := g.created
  let g := { g with created := g.created + 1 }
  metrics_set_meter_provider provider g

/-- KafkaMetrics.__init__(service_name): stores the service name and runs
_init_metrics. -/
def KafkaMetrics.construct (service_name : String) (g : MetricsGlobal) :
    KafkaMetrics × MetricsGlobal :=
  ({ service_name := service_name }, init_metrics_global g)

/-- JobMetrics.__init__(service_name): stores the service name and runs
_init_metrics. -/
def JobMetrics.construct (service_name : String) (g : MetricsGlobal) :
    JobMetrics × MetricsGlobal :=
  ({ service_name := service_name }, init_metrics_global g)

/-- The process-wide module state of the two registry singletons: the
_kafka_metrics and _job_metrics slots plus the global meter-provider
state their constructors touch. -/
structure ProcState where
  kafka : Option KafkaMetrics
  job : Option JobMetrics
  mg : MetricsGlobal
deriving DecidableEq, Repr

/-- The state of a process in which neither init_* has ever run. -/
def freshProc : ProcState :=
  { kafka := none, job := none, mg := { installed := none, created := 0 } }

/-- kafka_metrics.init_kafka_metrics(service_name): constructs the
registry only if the slot is empty, and returns the slot's registry. -/
def init_kafka_metrics (service_name : String) (ps : ProcState) :
    KafkaMetrics × ProcState :=
  match ps.kafka with
  | some m => (m, ps)
  | none =>
      let (m, mg) := KafkaMetrics.construct service_name ps.mg
      (m, { ps with kafka := some m, mg := mg })

/-- kafka_metrics.get_kafka_metrics(): returns the slot, touching
nothing. -/
def get_kafka_metrics (ps : ProcState) : Option KafkaMetrics × ProcState :=
  (ps.kafka, ps)

/-- job_metrics.init_job_metrics(service_name). -/
def init_job_metrics (service_name : String) (ps : ProcState) :
    JobMetrics × ProcState :=
  match ps.job with
  | some m => (m, ps)
  | none =>
      let (m, mg) := JobMetrics.construct service_name ps.mg
      (m, { ps with job := some m, mg := mg })

/-- job_metrics.get_job_metrics(). -/
def get_job_metrics (ps : ProcState) : Option JobMetrics × ProcState :=
  (ps.job, ps)

/-- One call to the module-level singleton API. -/
inductive ApiCall where
  | initKafka (service_name : String)
  | getKafka
  | initJob (service_name : String)
  | getJob
deriving DecidableEq, Repr

/-- The state effect of one API call. -/
def stepCall (ps : ProcState) (c : ApiCall) : ProcState :=
  match c with
  | ApiCall.initKafka s => (init_kafka_metrics s ps).2
  | ApiCall.getKafka => (get_kafka_metrics ps).2
  | ApiCall.initJob s => (init_job_metrics s ps).2
  | ApiCall.getJob => (get_job_metrics ps).2

/-- Run a sequence of API calls from a starting state. -/
def runCalls (ps : ProcState) (cs : List ApiCall) : ProcState :=
  cs.foldl stepCall ps

/-- Whether a call is an init of the kafka registry. -/
def ApiCall.isInitKafka : ApiCall → Bool
  | ApiCall.initKafka _ => true
  | _ => false

/-- Whether a call is an init of the job registry. -/
def ApiCall.isInitJob : ApiCall → Bool
  | ApiCall.initJob _ => true
  | _ => false

/-! ## Theorems -/

/-- Folding set_attribute over a list of pairs appends them all to the
span's attribute list and changes nothing else. -/
theorem foldl_set_attribute (attrs : List (String × String)) (sp : SpanState) :
    attrs.foldl (fun s kv => s.set_attribute kv.1 kv.2) sp =
      { sp with attributes := sp.attributes ++ attrs } := by
  induction attrs generalizing sp with
  | nil => simp
  | cons kv rest ih =>
      rw [List.foldl_cons, ih]
      simp [SpanState.set_attribute]

/-- C1 counterexample: for the body raising ValueError("boom"),
start_trace_span ends the span with status ERROR, but its message is
"ValueError: boom" (the SDK formats the description as the exception type
name, a colon and the message), not "boom", E's message — so the claim's
"message equals E's message" fails at this input. -/
theorem c1_counterexample :
    (start_trace_span "op" []
      (Outcome.exn ⟨"ValueError", "boom"⟩) : Outcome Unit × SpanState).2.status
        = SpanStatus.error "ValueError: boom" ∧
    ¬ ((start_trace_span "op" []
      (Outcome.exn ⟨"ValueError", "boom"⟩) : Outcome Unit × SpanState).2.status
        = SpanStatus.error "boom") := by
  constructor <;> decide

/-- C1 (amended): for every callable body that raises an error E,
start_trace_span re-raises exactly E, and the span it opened ends with
status ERROR whose message is E's type name followed by ": " and E's
message, and with exactly one exception record attached. -/
theorem c1_start_trace_span_error {α : Type} (name : String)
    (attrs : List (String × String)) (e : PyExc) :
    start_trace_span (α := α) name attrs (Outcome.exn e) =
      (Outcome.exn e,
        { name := name, attributes := attrs, exceptionEvents := [e],
          status := SpanStatus.error (e.typeName ++ ": " ++ e.msg),
          ended := true }) := by
  simp [start_trace_span, foldl_set_attribute, freshSpan, use_span_exit,
    SpanState.record_exception, SpanState.set_status, SpanState.end_span]

/-- C2: measure_send_time(topic) around a block that raises e re-raises e,
increments the messages-failed counter for that topic by exactly 1, and
records exactly one observation, which is nonnegative, in the
send-duration histogram (tick, the clock advance across the block, does
not run backwards). -/
theorem c2_measure_send_time_failure (m : KafkaMetrics) (topic : String)
    (e : PyExc) (tick : ℚ) (st : MetricsState) (h : 0 ≤ tick) :
    (m.measure_send_time topic (Outcome.exn e) tick st).1 = Outcome.exn e ∧
    counterTotal (m.measure_send_time topic (Outcome.exn e) tick st).2
        "kafka_messages_failed_total" ("topic", topic) =
      counterTotal st "kafka_messages_failed_total" ("topic", topic) + 1 ∧
    ∃ d : ℚ, 0 ≤ d ∧
      histObservations (m.measure_send_time topic (Outcome.exn e) tick st).2
          "kafka_send_duration_seconds" =
        histObservations st "kafka_send_duration_seconds" ++ [d] := by
  refine ⟨rfl, ?_, ⟨tick, h, ?_⟩⟩ <;>
    simp [KafkaMetrics.measure_send_time, KafkaMetrics.record_send_duration,
      KafkaMetrics.record_message_sent, instrAdd, counterTotal,
      histObservations, List.filter_append]

/-- C2 witness: the contract at a concrete topic, error, tick and state. -/
theorem c2_witness :
    ((⟨"svc"⟩ : KafkaMetrics).measure_send_time "orders"
        (Outcome.exn ⟨"KafkaError", "broker down"⟩) 1 ⟨0, []⟩).1 =
      Outcome.exn ⟨"KafkaError", "broker down"⟩ ∧
    counterTotal ((⟨"svc"⟩ : KafkaMetrics).measure_send_time "orders"
          (Outcome.exn ⟨"KafkaError", "broker down"⟩) 1 ⟨0, []⟩).2
        "kafka_messages_failed_total" ("topic", "orders") =
      counterTotal ⟨0, []⟩ "kafka_messages_failed_total" ("topic", "orders") + 1 ∧
    ∃ d : ℚ, 0 ≤ d ∧
      histObservations ((⟨"svc"⟩ : KafkaMetrics).measure_send_time "orders"
            (Outcome.exn ⟨"KafkaError", "broker down"⟩) 1 ⟨0, []⟩).2
          "kafka_send_duration_seconds" =
        histObservations ⟨0, []⟩ "kafka_send_duration_seconds" ++ [d] :=
  c2_measure_send_time_failure ⟨"svc"⟩ "orders" ⟨"KafkaError", "broker down"⟩
    1 ⟨0, []⟩ (by norm_num)

/-- C3 counterexample: with an instrument backend whose add raises, the
facade's record_message_sent propagates the failure to the caller — the
method body has no error handling, so "any failure of the underlying
instrument operation is logged and swallowed inside the facade" is false
at this input. -/
theorem c3_counterexample :
    KafkaMetrics.record_message_sent_x (failAdd ⟨"Exception", "backend down"⟩)
        ⟨"svc"⟩ "orders" true ⟨0, []⟩ =
      Except.error ⟨"Exception", "backend down"⟩ := rfl

/-- C3 (amended): every record operation of both registries completes
normally whenever the underlying instrument operations do not raise (the
OTel SDK's contract), computing exactly the primary embedding; but the
facade itself swallows nothing: with a backend whose instrument
operations raise e, every record operation propagates e to the caller. -/
theorem c3_record_ops_no_own_handling (km : KafkaMetrics) (jm : JobMetrics)
    (op : RecordOp) (st : MetricsState) :
    applyOpX okAdd km jm op st = Except.ok (applyOp km jm op st) ∧
    ∀ e : PyExc, applyOpX (failAdd e) km jm op st = Except.error e := by
  cases op
  case messageSent topic success =>
    cases success <;> exact ⟨rfl, fun e => rfl⟩
  all_goals exact ⟨rfl, fun e => rfl⟩

/-- C4: record_job_created(job_type) followed by
record_job_completed(job_type, duration) leaves the queue-size up/down
counter for the service at its pre-creation total, increments the
completed counter by exactly 1, and records exactly one observation,
equal to duration, in the job-duration histogram. -/
theorem c4_create_then_complete (jm : JobMetrics) (job_type : String)
    (duration : ℚ) (st : MetricsState) :
    counterTotal (jm.record_job_completed job_type duration
          (jm.record_job_created job_type st))
        "job_queue_size" ("service", jm.service_name) =
      counterTotal st "job_queue_size" ("service", jm.service_name) ∧
    counterTotal (jm.record_job_completed job_type duration
          (jm.record_job_created job_type st))
        "jobs_completed_total" ("job_type", job_type) =
      counterTotal st "jobs_completed_total" ("job_type", job_type) + 1 ∧
    histObservations (jm.record_job_completed job_type duration
          (jm.record_job_created job_type st)) "job_duration_seconds" =
      histObservations st "job_duration_seconds" ++ [duration] := by
  refine ⟨?_, ?_, ?_⟩ <;>
    simp [JobMetrics.record_job_created, JobMetrics.record_job_completed,
      instrAdd, counterTotal, histObservations, List.filter_append]

/-- What init_telemetry computes when the port environment variable
parses: a fresh provider appended to the heap, offered to the set-once
global setter, then given its batch export pipeline. -/
theorem init_telemetry_ok (env : Env) (s : String) (g : TraceGlobal)
    (port : Int)
    (hp : pyInt (getenvD env "JAEGER_PORT" "6831") = Except.ok port) :
    init_telemetry env s g = Except.ok
      ((trace_set_tracer_provider g.heap.length
          { heap := g.heap ++ [{ service_name := s, processors := [] }],
            installed := g.installed }).add_span_processor g.heap.length
        { agent_host_name := getenvD env "JAEGER_HOST" "localhost",
          agent_port := port }) := by
  simp only [init_telemetry]
  rw [hp]

/-- C5: a first init_telemetry call installs a retrievable ambient tracer
provider carrying the given service name (with one batch export
pipeline), and a second init_telemetry call in the same process does not
throw and leaves the configuration of the installed provider exactly as
the first call left it. -/
theorem c5_init_telemetry_second_call_noop (env : Env) (s s2 : String)
    (g1 : TraceGlobal)
    (h : init_telemetry env s { heap := [], installed := none } =
      Except.ok g1) :
    (∃ cfg : SpanProcessorCfg, ambientTracerProvider g1 =
      some { service_name := s, processors := [cfg] }) ∧
    ∃ g2 : TraceGlobal, init_telemetry env s2 g1 = Except.ok g2 ∧
      ambientTracerProvider g2 = ambientTracerProvider g1 := by
  cases hp : pyInt (getenvD env "JAEGER_PORT" "6831") with
  | error e =>
      simp only [init_telemetry] at h
      rw [hp] at h
      simp at h
  | ok port =>
      rw [init_telemetry_ok env s _ port hp] at h
      simp only [Except.ok.injEq] at h
      subst h
      constructor
      · exact ⟨⟨getenvD env "JAEGER_HOST" "localhost", port⟩, by
          simp [ambientTracerProvider, trace_set_tracer_provider,
            TraceGlobal.add_span_processor]⟩
      · refine ⟨_, init_telemetry_ok env s2 _ port hp, ?_⟩
        simp [ambientTracerProvider, trace_set_tracer_provider,
          TraceGlobal.add_span_processor]

/-- C5 witness: a fresh process, an empty environment and concrete
service names. -/
theorem c5_witness :
    (∃ cfg : SpanProcessorCfg,
      ambientTracerProvider
          { heap := [{ service_name := "svc-a",
                       processors := [{ agent_host_name := "localhost",
                                        agent_port := 6831 }] }],
            installed := some 0 } =
        some { service_name := "svc-a", processors := [cfg] }) ∧
    ∃ g2 : TraceGlobal,
      init_telemetry [] "svc-b"
          { heap := [{ service_name := "svc-a",
                       processors := [{ agent_host_name := "localhost",
                                        agent_port := 6831 }] }],
            installed := some 0 } = Except.ok g2 ∧
      ambientTracerProvider g2 =
        ambientTracerProvider
          { heap := [{ service_name := "svc-a",
                       processors := [{ agent_host_name := "localhost",
                                        agent_port := 6831 }] }],
            installed := some 0 } :=
  c5_init_telemetry_second_call_noop [] "svc-a" "svc-b" _ (by rfl)

/-- C6 counterexample: wrapping a raising block, measure_job_duration
leaves the jobs-failed counter and the queue-size counter untouched (the
claimed "records a failed outcome, decrementing the queue-size counter
and counting the failure" does not happen), even though it re-raises. -/
theorem c6_counterexample :
    counterTotal ((⟨"svc"⟩ : JobMetrics).measure_job_duration "export"
        (Outcome.exn ⟨"RuntimeError", "boom"⟩) 1 { now := 0, events := [] }).2
      "jobs_failed_total" ("service", "svc") = 0 ∧
    counterTotal ((⟨"svc"⟩ : JobMetrics).measure_job_duration "export"
        (Outcome.exn ⟨"RuntimeError", "boom"⟩) 1 { now := 0, events := [] }).2
      "job_queue_size" ("service", "svc") = 0 ∧
    ((⟨"svc"⟩ : JobMetrics).measure_job_duration "export"
        (Outcome.exn ⟨"RuntimeError", "boom"⟩) 1 { now := 0, events := [] }).1
      = Outcome.exn ⟨"RuntimeError", "boom"⟩ := by
  refine ⟨?_, ?_, rfl⟩ <;> rfl

/-- C6 (amended): measure_job_duration times the block in both cases and
re-raises any error, but its outcome recording is asymmetric to
measure_send_time: on a raising block it only records the measured
duration in the job-duration histogram under a status=failed label —
neither incrementing the failed counter nor decrementing the queue-size
counter — while on success it records the duration and a completed
outcome (completed counter +1, queue-size -1). -/
theorem c6_measure_job_duration_contract (jm : JobMetrics) (jt : String)
    (e : PyExc) (tick : ℚ) (st : MetricsState) :
    ((jm.measure_job_duration jt (Outcome.exn e) tick st).1 = Outcome.exn e ∧
      (jm.measure_job_duration jt (Outcome.exn e) tick st).2.events =
        st.events ++ [⟨"job_duration_seconds", tick,
          [("job_type", jt), ("status", "failed"),
           ("service", jm.service_name)]⟩] ∧
      counterTotal (jm.measure_job_duration jt (Outcome.exn e) tick st).2
          "jobs_failed_total" ("service", jm.service_name) =
        counterTotal st "jobs_failed_total" ("service", jm.service_name) ∧
      counterTotal (jm.measure_job_duration jt (Outcome.exn e) tick st).2
          "job_queue_size" ("service", jm.service_name) =
        counterTotal st "job_queue_size" ("service", jm.service_name)) ∧
    ((jm.measure_job_duration jt (Outcome.ok ()) tick st).1 =
        Outcome.ok () ∧
      counterTotal (jm.measure_job_duration jt (Outcome.ok ()) tick st).2
          "jobs_completed_total" ("job_type", jt) =
        counterTotal st "jobs_completed_total" ("job_type", jt) + 1 ∧
      counterTotal (jm.measure_job_duration jt (Outcome.ok ()) tick st).2
          "job_queue_size" ("service", jm.service_name) =
        counterTotal st "job_queue_size" ("service", jm.service_name) - 1 ∧
      histObservations
          (jm.measure_job_duration jt (Outcome.ok ()) tick st).2
          "job_duration_seconds" =
        histObservations st "job_duration_seconds" ++ [tick]) := by
  refine ⟨⟨rfl, ?_, ?_, ?_⟩, ⟨rfl, ?_, ?_, ?_⟩⟩ <;>
    (simp [JobMetrics.measure_job_duration, JobMetrics.record_job_completed,
      instrAdd, counterTotal, histObservations, List.filter_append]
     try ring)

/-- Dropping the length of the left part of an append leaves the right
part. -/
theorem drop_self_append {α : Type} (l₁ l₂ : List α) :
    (l₁ ++ l₂).drop l₁.length = l₂ := by
  induction l₁ with
  | nil => simp
  | cons a t ih => simp

/-- C7: every record operation of both registries attaches the label
"service", mapped to the owning registry's service name, to each metric
sample it records. -/
theorem c7_service_label (km : KafkaMetrics) (jm : JobMetrics)
    (op : RecordOp) (st : MetricsState) :
    (((applyOp km jm op st).events.drop st.events.length).all
      (fun ev => ev.labels.lookup "service"
        == some (opOwnerService km jm op))) = true := by
  cases op
  case messageSent topic success =>
    cases success <;>
      simp [applyOp, opOwnerService, KafkaMetrics.record_message_sent,
        instrAdd, drop_self_append, List.lookup]
  all_goals
    simp [applyOp, opOwnerService, instrAdd, drop_self_append, List.lookup,
      KafkaMetrics.record_reconnection, KafkaMetrics.record_send_duration,
      KafkaMetrics.record_retry_attempts, KafkaMetrics.set_producer_health,
      JobMetrics.record_job_created, JobMetrics.record_job_completed,
      JobMetrics.record_job_failed, JobMetrics.record_job_cancelled,
      JobMetrics.record_job_expired, JobMetrics.record_ws_connection,
      JobMetrics.record_ws_subscription, JobMetrics.record_ws_message,
      JobMetrics.record_ws_heartbeat, JobMetrics.record_poll_request,
      JobMetrics.record_cache_hit, JobMetrics.record_cache_miss,
      JobMetrics.record_idempotent_request,
      JobMetrics.record_idempotent_hit]

/-- Running one more call first is running the tail from the stepped
state. -/
theorem runCalls_cons (ps : ProcState) (c : ApiCall) (cs : List ApiCall) :
    runCalls ps (c :: cs) = runCalls (stepCall ps c) cs := rfl

/-- A call sequence containing no init_kafka_metrics call leaves the
kafka registry slot untouched. -/
theorem runCalls_kafka_stable (cs : List ApiCall) (ps : ProcState)
    (h : ∀ c ∈ cs, c.isInitKafka = false) :
    (runCalls ps cs).kafka = ps.kafka := by
  induction cs generalizing ps with
  | nil => rfl
  | cons c t ih =>
      rw [runCalls_cons, ih _ (fun x hx => h x (List.mem_cons_of_mem _ hx))]
      cases c with
      | initKafka s =>
          exact absurd (h _ (List.mem_cons_self _ _))
            (by simp [ApiCall.isInitKafka])
      | getKafka => rfl
      | initJob s =>
          cases hj : ps.job <;> simp [stepCall, init_job_metrics, hj]
      | getJob => rfl

/-- A call sequence containing no init_job_metrics call leaves the job
registry slot untouched. -/
theorem runCalls_job_stable (cs : List ApiCall) (ps : ProcState)
    (h : ∀ c ∈ cs, c.isInitJob = false) :
    (runCalls ps cs).job = ps.job := by
  induction cs generalizing ps with
  | nil => rfl
  | cons c t ih =>
      rw [runCalls_cons, ih _ (fun x hx => h x (List.mem_cons_of_mem _ hx))]
      cases c with
      | initJob s =>
          exact absurd (h _ (List.mem_cons_self _ _))
            (by simp [ApiCall.isInitJob])
      | getJob => rfl
      | initKafka s =>
          cases hk : ps.kafka <;> simp [stepCall, init_kafka_metrics, hk]
      | getKafka => rfl

/-- C8: in every process state reached without ever calling
init_kafka_metrics, get_kafka_metrics() returns None and leaves the
whole process state — in particular the registry slot — unchanged; and
likewise for get_job_metrics relative to init_job_metrics. -/
theorem c8_get_before_init (cs : List ApiCall) :
    ((∀ c ∈ cs, c.isInitKafka = false) →
      get_kafka_metrics (runCalls freshProc cs) =
        (none, runCalls freshProc cs)) ∧
    ((∀ c ∈ cs, c.isInitJob = false) →
      get_job_metrics (runCalls freshProc cs) =
        (none, runCalls freshProc cs)) := by
  constructor
  · intro h
    have hs := runCalls_kafka_stable cs freshProc h
    simp only [get_kafka_metrics, Prod.mk.injEq]
    exact ⟨hs, trivial⟩
  · intro h
    have hs := runCalls_job_stable cs freshProc h
    simp only [get_job_metrics, Prod.mk.injEq]
    exact ⟨hs, trivial⟩

/-- C8 witness: concrete traces — one that initializes only the job
registry, one that initializes only the kafka registry. -/
theorem c8_witness :
    get_kafka_metrics
        (runCalls freshProc [ApiCall.getKafka, ApiCall.initJob "jobs"]) =
      (none, runCalls freshProc [ApiCall.getKafka, ApiCall.initJob "jobs"]) ∧
    get_job_metrics
        (runCalls freshProc [ApiCall.getJob, ApiCall.initKafka "k"]) =
      (none, runCalls freshProc [ApiCall.getJob, ApiCall.initKafka "k"]) :=
  ⟨(c8_get_before_init [ApiCall.getKafka, ApiCall.initJob "jobs"]).1
      (by decide),
   (c8_get_before_init [ApiCall.getJob, ApiCall.initKafka "k"]).2
      (by decide)⟩

/-- C9: from a process where a registry slot is empty, init(a) followed
by init(b) returns the very registry created by the first call, whose
service_name is a — the second argument is silently ignored and the
second call changes no state; for both registries. -/
theorem c9_init_twice_returns_first (a b : String) (ps : ProcState)
    (hk : ps.kafka = none) (hj : ps.job = none) :
    ((init_kafka_metrics b (init_kafka_metrics a ps).2).1 =
        (init_kafka_metrics a ps).1 ∧
      (init_kafka_metrics a ps).1.service_name = a ∧
      (init_kafka_metrics b (init_kafka_metrics a ps).2).2 =
        (init_kafka_metrics a ps).2) ∧
    ((init_job_metrics b (init_job_metrics a ps).2).1 =
        (init_job_metrics a ps).1 ∧
      (init_job_metrics a ps).1.service_name = a ∧
      (init_job_metrics b (init_job_metrics a ps).2).2 =
        (init_job_metrics a ps).2) := by
  constructor <;> refine ⟨?_, ?_, ?_⟩ <;>
    simp [init_kafka_metrics, init_job_metrics, hk, hj,
      KafkaMetrics.construct, JobMetrics.construct]

/-- C9 witness: a fresh process and concrete service names. -/
theorem c9_witness :
    ((init_kafka_metrics "b" (init_kafka_metrics "a" freshProc).2).1 =
        (init_kafka_metrics "a" freshProc).1 ∧
      (init_kafka_metrics "a" freshProc).1.service_name = "a" ∧
      (init_kafka_metrics "b" (init_kafka_metrics "a" freshProc).2).2 =
        (init_kafka_metrics "a" freshProc).2) ∧
    ((init_job_metrics "b" (init_job_metrics "a" freshProc).2).1 =
        (init_job_metrics "a" freshProc).1 ∧
      (init_job_metrics "a" freshProc).1.service_name = "a" ∧
      (init_job_metrics "b" (init_job_metrics "a" freshProc).2).2 =
        (init_job_metrics "a" freshProc).2) :=
  c9_init_twice_returns_first "a" "b" freshProc rfl rfl

/-- C10 counterexample: from a fresh process, initializing the kafka
registry installs meter provider 0; initializing the job registry then
constructs fresh provider 1 (the creation counter reaches 2) but the
installed provider is still 0, not 1 — the second registry does not
replace the global provider state installed by the first. -/
theorem c10_counterexample :
    (init_kafka_metrics "kafka-svc" freshProc).2.mg =
      { installed := some 0, created := 1 } ∧
    (init_job_metrics "job-svc"
        (init_kafka_metrics "kafka-svc" freshProc).2).2.mg.created = 2 ∧
    (init_job_metrics "job-svc"
        (init_kafka_metrics "kafka-svc" freshProc).2).2.mg.installed =
      some 0 ∧
    ¬ ((init_job_metrics "job-svc"
        (init_kafka_metrics "kafka-svc" freshProc).2).2.mg.installed =
      some 1) := by
  refine ⟨rfl, rfl, rfl, ?_⟩
  decide

/-- C10 (amended): each registry construction unconditionally creates a
fresh MeterProvider and passes it to the global setter, but the setter
installs it only when no provider is installed yet; when one already is,
the installed provider is left unchanged, so initializing the second
registry does not replace the provider installed by the first. -/
theorem c10_meter_provider_install_once (g : MetricsGlobal) (s : String) :
    (KafkaMetrics.construct s g).2 = init_metrics_global g ∧
    (JobMetrics.construct s g).2 = init_metrics_global g ∧
    (init_metrics_global g).created = g.created + 1 ∧
    (g.installed = none →
      (init_metrics_global g).installed = some g.created) ∧
    ∀ p : Nat, g.installed = some p →
      (init_metrics_global g).installed = some p := by
  refine ⟨rfl, rfl, ?_, ?_, ?_⟩
  · cases h : g.installed <;>
      simp [init_metrics_global, metrics_set_meter_provider, h]
  · intro h
    simp [init_metrics_global, metrics_set_meter_provider, h]
  · intro p h
    simp [init_metrics_global, metrics_set_meter_provider, h]

/-- C10 witness: the fresh-install and the already-installed cases at
concrete global states. -/
theorem c10_witness :
    (init_metrics_global { installed := none, created := 0 }).installed =
      some 0 ∧
    (init_metrics_global { installed := some 7, created := 3 }).installed =
      some 7 :=
  ⟨(c10_meter_provider_install_once { installed := none, created := 0 }
      "svc").2.2.2.1 rfl,
   (c10_meter_provider_install_once { installed := some 7, created := 3 }
      "svc").2.2.2.2 7 rfl⟩

end Wisey
